import Mathlib

/-!
Verification of the videojs-persist-controls plugin core (src/unnamed/part_000,
first document; src/src/plugin.js is a near-duplicate without the audio-track
branch).  The development shallowly embeds the plugin's data model and logic:

* the persisted record read/written under the fixed key is modelled both at
  string level (a JSON value type plus a model of `JSON.parse`, for the codec
  claims) and at record level (a structure of optional preference fields, for
  the session claims, abstracting `JSON.stringify`/`JSON.parse` round-trips on
  well-formed flat records);
* the player is a structure holding the fields the plugin reads and mutates;
* `onPlayerReady` is the startup application of persisted preferences in the
  source's `persistOptions` order, and the change handlers are a step function
  over session states;
* `persistControls` is the activation entry point with its storage probe.

JavaScript truthiness (`if (value)`) and reference semantics of
`Array.prototype.find` are modelled explicitly, since several behaviours hinge
on them.
-/

/-! ## JSON values and a model of `JSON.parse`

The plugin decodes the stored string with
`JSON.parse(localStorage.getItem(key)) || {}` (part_000 line 65).  `JSON.parse`
is modelled by a recursive-descent parser over a JSON subset (null, booleans,
decimal numbers, strings with single-character escapes, arrays, objects) —
enough to cover every record this plugin ever stores, and to be honest about
which inputs fail to parse.  In JavaScript, `JSON.parse` THROWS on malformed
input; the model returns `none`, and the decode step turns that into an
`Except.error`, since the exception propagates to the caller. -/

inductive Json where
  | null
  | bool (b : Bool)
  | num (q : ℚ)
  | str (s : String)
  | arr (elems : List Json)
  | obj (fields : List (String × Json))

/-- JavaScript truthiness of a parsed JSON value, as used by `parsed || fallback`. -/
def jsTruthy : Json → Bool
  | .null => false
  | .bool b => b
  | .num q => q != 0
  | .str s => s != ""
  | .arr _ => true
  | .obj _ => true

/-- Skip JSON whitespace. -/
def skipWs : List Char → List Char
  | [] => []
  | c :: cs => if c == ' ' || c == '\t' || c == '\n' || c == '\r' then skipWs cs else c :: cs

/-- Consume an expected literal character sequence. -/
def expectChars : List Char → List Char → Option (List Char)
  | [], cs => some cs
  | _ :: _, [] => none
  | e :: es, c :: cs => if c == e then expectChars es cs else none

/-- Split a leading run of decimal digits from the input. -/
def takeDigits : List Char → List Char × List Char
  | [] => ([], [])
  | c :: cs =>
    if c.isDigit then
      let (ds, rest) := takeDigits cs
      (c :: ds, rest)
    else ([], c :: cs)

/-- Numeric value of a digit run. -/
def digitsToNat (ds : List Char) : Nat :=
  ds.foldl (fun n c => 10 * n + (c.toNat - 48)) 0

/-- Parse a JSON number (optional minus, integer part, optional fraction). -/
def parseNumber (cs : List Char) : Option (ℚ × List Char) :=
  let (neg, cs1) :=
    match cs with
    | c :: rest => if c == '-' then (true, rest) else (false, cs)
    | [] => (false, [])
  match takeDigits cs1 with
  | ([], _) => none
  | (ds, rest) =>
    let ip : ℚ := (digitsToNat ds : ℚ)
    let cont : Option (ℚ × List Char) :=
      match rest with
      | c :: rest2 =>
        if c == '.' then
          match takeDigits rest2 with
          | ([], _) => none
          | (fs, rest3) =>
            some (ip + (digitsToNat fs : ℚ) / ((10 : ℚ) ^ fs.length), rest3)
        else some (ip, rest)
      | [] => some (ip, [])
    cont.map (fun qr => (if neg then -qr.1 else qr.1, qr.2))

/-- Unescape the character following a backslash inside a JSON string. -/
def unescapeChar (c : Char) : Char :=
  if c == 'n' then '\n' else if c == 't' then '\t' else c

/-- Parse the body of a JSON string after the opening quote, up to and
including the closing quote. -/
def parseStringChars : List Char → Option (List Char × List Char)
  | [] => none
  | c :: cs =>
    if c == Char.ofNat 34 then some ([], cs)
    else if c == '\\' then
      match cs with
      | d :: cs2 => (parseStringChars cs2).map (fun sr => (unescapeChar d :: sr.1, sr.2))
      | [] => none
    else (parseStringChars cs).map (fun sr => (c :: sr.1, sr.2))

mutual

/-- Parse one JSON value; `fuel` bounds nesting depth. -/
def parseValue : Nat → List Char → Option (Json × List Char)
  | 0, _ => none
  | Nat.succ fuel, cs =>
    match skipWs cs with
    | [] => none
    | c :: rest =>
      if c == 'n' then (expectChars ['u', 'l', 'l'] rest).map (fun r => (Json.null, r))
      else if c == 't' then (expectChars ['r', 'u', 'e'] rest).map (fun r => (Json.bool true, r))
      else if c == 'f' then
        (expectChars ['a', 'l', 's', 'e'] rest).map (fun r => (Json.bool false, r))
      else if c == Char.ofNat 34 then
        (parseStringChars rest).map (fun sr => (Json.str (String.mk sr.1), sr.2))
      else if c == Char.ofNat 123 then
        match skipWs rest with
        | d :: rest2 =>
          if d == Char.ofNat 125 then some (Json.obj [], rest2)
          else (parseMembers fuel (d :: rest2)).map (fun mr => (Json.obj mr.1, mr.2))
        | [] => none
      else if c == '[' then
        match skipWs rest with
        | d :: rest2 =>
          if d == ']' then some (Json.arr [], rest2)
          else (parseElements fuel (d :: rest2)).map (fun er => (Json.arr er.1, er.2))
        | [] => none
      else if c == '-' || c.isDigit then
        (parseNumber (c :: rest)).map (fun nr => (Json.num nr.1, nr.2))
      else none

/-- Parse one or more `"key": value` members, consuming the closing brace. -/
def parseMembers : Nat → List Char → Option (List (String × Json) × List Char)
  | 0, _ => none
  | Nat.succ fuel, cs =>
    match skipWs cs with
    | [] => none
    | c :: rest =>
      if c == Char.ofNat 34 then
        match parseStringChars rest with
        | none => none
        | some (key, rest2) =>
          match skipWs rest2 with
          | [] => none
          | d :: rest3 =>
            if d == ':' then
              match parseValue fuel rest3 with
              | none => none
              | some (v, rest4) =>
                match skipWs rest4 with
                | [] => none
                | e :: rest5 =>
                  if e == ',' then
                    (parseMembers fuel rest5).map
                      (fun mr => ((String.mk key, v) :: mr.1, mr.2))
                  else if e == Char.ofNat 125 then some ([(String.mk key, v)], rest5)
                  else none
            else none
      else none

/-- Parse one or more array elements, consuming the closing bracket. -/
def parseElements : Nat → List Char → Option (List Json × List Char)
  | 0, _ => none
  | Nat.succ fuel, cs =>
    match parseValue fuel cs with
    | none => none
    | some (v, rest) =>
      match skipWs rest with
      | [] => none
      | e :: rest2 =>
        if e == ',' then (parseElements fuel rest2).map (fun er => (v :: er.1, er.2))
        else if e == ']' then some ([v], rest2)
        else none

end

/-- Model of `JSON.parse` on a whole string: `none` models a thrown
`SyntaxError`. -/
def parseJson (s : String) : Option Json :=
  match parseValue (s.length + 1) s.toList with
  | some (v, rest) => if (skipWs rest).isEmpty then some v else none
  | none => none

/-- Model of `JSON.parse(localStorage.getItem(key)) || ` empty object
(part_000 line 65).  `getItem` returns `null` when the key is absent, and
`JSON.parse(null)` coerces to the string `"null"`, parses to JSON `null`
(falsy), so the `||` fallback yields the empty object.  A stored string that
parses to a falsy value likewise falls back to the empty object.  A malformed
stored string makes `JSON.parse` throw, which propagates to the caller:
modelled as `Except.error`. -/
def decodeData : Option String → Except Unit Json
  | none => Except.ok (Json.obj [])
  | some s =>
    match parseJson s with
    | some v => Except.ok (if jsTruthy v then v else Json.obj [])
    | none => Except.error ()

/-! ## The persisted record and plugin options

For the session-level claims the persisted record is modelled directly as a
structure of optional preference fields — the flat shape the plugin itself
writes (`data.muted`, `data.volume`, `data.playbackRate`, `data.captions`,
`data.audioTrack`), with `none` for an absent key.  Storage content is
modelled as `Option PersistedRecord` (`none` = key absent), abstracting the
`JSON.stringify`/`JSON.parse` round trip on such flat records; the string
level codec above is used for the decode-tolerance claim. -/

structure PersistedRecord where
  muted : Option Bool := none
  volume : Option ℚ := none
  playbackRate : Option ℚ := none
  captions : Option String := none
  audioTrack : Option String := none
deriving Repr, DecidableEq

/-- The empty record, result of decoding absent storage. -/
def emptyRecord : PersistedRecord := {}

/-- Merged plugin options: which preference kinds are enabled
(PLUGIN_CONFIG.defaultOptions keys). -/
structure PluginOptions where
  muted : Bool
  volume : Bool
  playbackRate : Bool
  captions : Bool
  audioTrack : Bool
deriving Repr, DecidableEq

/-- PLUGIN_CONFIG.defaultOptions: every preference enabled. -/
def defaultOptions : PluginOptions :=
  { muted := true, volume := true, playbackRate := true, captions := true, audioTrack := true }

/-- Caller-supplied options before the `videojs.obj.merge` with the defaults:
a field is `none` when the caller did not mention it. -/
structure UserOptions where
  muted : Option Bool := none
  volume : Option Bool := none
  playbackRate : Option Bool := none
  captions : Option Bool := none
  audioTrack : Option Bool := none
deriving Repr, DecidableEq

/-- Model of `videojs.obj.merge(PLUGIN_CONFIG.defaultOptions, options)`:
a caller-supplied value overrides the default (which is `true` everywhere). -/
def mergeOptions (u : UserOptions) : PluginOptions :=
  { muted := u.muted.getD true
    volume := u.volume.getD true
    playbackRate := u.playbackRate.getD true
    captions := u.captions.getD true
    audioTrack := u.audioTrack.getD true }

/-! ## Player runtime state -/

/-- A text (caption) track: `language`, its content-authored `default` flag and
its `mode` string (`"showing"` when active), per the video.js track object. -/
structure TextTrack where
  language : String
  default : Bool
  mode : String
deriving Repr, DecidableEq

/-- An audio track: `language` and its `enabled` flag. -/
structure AudioTrack where
  language : String
  enabled : Bool
deriving Repr, DecidableEq

/-- The slice of the video.js player the plugin reads or mutates. -/
structure PlayerState where
  muted : Bool
  defaultMuted : Bool
  volume : ℚ
  playbackRate : ℚ
  defaultPlaybackRate : ℚ
  playbackRates : List ℚ
  textTracks : List TextTrack
  audioTracks : List AudioTrack
  classes : List String
deriving Repr, DecidableEq

/-! ## List helpers modelling `Array.prototype.find` reference semantics

`find` returns (a reference to) the first matching element; the plugin then
mutates that object in place.  In the embedding this is the index of the first
match plus an in-place update at that index. -/

/-- Index of the first element satisfying `p` (`Array.prototype.find`). -/
def findIdxFrom (p : α → Bool) : List α → Option Nat
  | [] => none
  | x :: xs => if p x then some 0 else (findIdxFrom p xs).map (· + 1)

/-- Update the element at index `i` in place, leaving the rest unchanged. -/
def modifyIdx (f : α → α) : Nat → List α → List α
  | _, [] => []
  | 0, x :: xs => f x :: xs
  | Nat.succ i, x :: xs => x :: modifyIdx f i xs

/-! ## Startup application of the persisted record (onPlayerReady, first half)

`persistOptions.forEach` runs over `['volume', 'muted', 'playbackRate',
'captions', 'audioTrack']` in that order; each step is guarded by the option
flag and by JavaScript truthiness of the stored value (`if (value)`), so a
stored `false`, `0` or `""` is skipped exactly like an absent key. -/

/-- Set a text track's mode to showing (`track.mode = 'showing'`). -/
def setShowing (t : TextTrack) : TextTrack :=
  { t with mode := "showing" }

/-- Caption resolution (part_000 lines 81–96): the first track with the
`default` flag wins and is shown; otherwise the first track whose language
equals the persisted value is shown; otherwise nothing changes. -/
def resolveCaptions (value : String) (ts : List TextTrack) : List TextTrack :=
  match findIdxFrom (fun t => t.default) ts with
  | some i => modifyIdx setShowing i ts
  | none =>
    match findIdxFrom (fun t => t.language == value) ts with
    | some j => modifyIdx setShowing j ts
    | none => ts

/-- Audio-track resolution (part_000 lines 98–113): `defaultTrack` is the
first currently enabled track, `trackToShow` the first track matching the
persisted language, both looked up in the original list; if both exist the
enabled one is disabled, then the match (if any) is enabled.  When the two are
the same object the net effect is that it stays enabled. -/
def resolveAudio (value : String) (ts : List AudioTrack) : List AudioTrack :=
  let enabledIdx := findIdxFrom (fun t => t.enabled) ts
  let matchIdx := findIdxFrom (fun t => t.language == value) ts
  let ts1 :=
    match enabledIdx, matchIdx with
    | some i, some _ => modifyIdx (fun t => { t with enabled := false }) i ts
    | _, _ => ts
  match matchIdx with
  | some j => modifyIdx (fun t => { t with enabled := true }) j ts1
  | none => ts1

/-- Startup step for `volume` (`player.volume(value)` under the truthiness
guard). -/
def applyVolumePref (opts : PluginOptions) (data : PersistedRecord)
    (p : PlayerState) : PlayerState :=
  if opts.volume then
    match data.volume with
    | some v => if v == 0 then p else { p with volume := v }
    | none => p
  else p

/-- Startup step for `muted` (`player.muted(value)`; only a stored `true` is
truthy). -/
def applyMutedPref (opts : PluginOptions) (data : PersistedRecord)
    (p : PlayerState) : PlayerState :=
  if opts.muted then
    match data.muted with
    | some b => if b then { p with muted := b } else p
    | none => p
  else p

/-- Startup step for `playbackRate`: applied only when the stored rate is a
member of the player's supported-rate list (`playerRates.includes(value)`). -/
def applyRatePref (opts : PluginOptions) (data : PersistedRecord)
    (p : PlayerState) : PlayerState :=
  if opts.playbackRate then
    match data.playbackRate with
    | some v =>
      if v == 0 then p
      else if p.playbackRates.contains v then { p with playbackRate := v } else p
    | none => p
  else p

/-- Startup step for `captions`. -/
def applyCaptionsPref (opts : PluginOptions) (data : PersistedRecord)
    (p : PlayerState) : PlayerState :=
  if opts.captions then
    match data.captions with
    | some v => if v == "" then p else { p with textTracks := resolveCaptions v p.textTracks }
    | none => p
  else p

/-- Startup step for `audioTrack`. -/
def applyAudioPref (opts : PluginOptions) (data : PersistedRecord)
    (p : PlayerState) : PlayerState :=
  if opts.audioTrack then
    match data.audioTrack with
    | some v => if v == "" then p else { p with audioTracks := resolveAudio v p.audioTracks }
    | none => p
  else p

/-- One session: the live player, the in-memory `data` object the handlers
mutate, and the storage slot under the plugin's fixed key. -/
structure SessionState where
  player : PlayerState
  data : PersistedRecord
  stored : Option PersistedRecord
deriving Repr, DecidableEq

/-- First half of `onPlayerReady` (part_000 lines 59–117): add the CSS class,
read and decode the stored record, then apply each enabled preference in
`persistOptions` order.  The resulting `SessionState` carries the in-memory
`data` closed over by the change handlers. -/
def onPlayerReady (opts : PluginOptions) (stored : Option PersistedRecord)
    (p : PlayerState) : SessionState :=
  let p0 := { p with classes := "vjs-persist-controls" :: p.classes }
  let data := stored.getD emptyRecord
  let p1 := applyVolumePref opts data p0
  let p2 := applyMutedPref opts data p1
  let p3 := applyRatePref opts data p2
  let p4 := applyCaptionsPref opts data p3
  let p5 := applyAudioPref opts data p4
  { player := p5, data := data, stored := stored }

/-! ## Change handlers (onPlayerReady, second half)

Each player event first updates the player's own state (the external change
the notification reports), then runs whichever handler the plugin registered.
A handler is registered exactly when the corresponding option flags are set
(`if (muted || volume)`, `if (playbackRate)`, `if (captions)`,
`if (audioTrack)`), so the step function is parameterised by the options.
Every write stores `JSON.stringify(data)` — the whole in-memory record. -/

inductive PlayerEvent where
  | volumeChange (v : ℚ) (m : Bool)
  | rateChange (r : ℚ)
  | textTrackChange (ts : List TextTrack)
  | audioTrackChange (ts : List AudioTrack)
deriving Repr, DecidableEq

/-- The player-side effect of the event itself, before any handler runs. -/
def applyEventToPlayer : PlayerEvent → PlayerState → PlayerState
  | .volumeChange v m, p => { p with volume := v, muted := m }
  | .rateChange r, p => { p with playbackRate := r }
  | .textTrackChange ts, p => { p with textTracks := ts }
  | .audioTrackChange ts, p => { p with audioTracks := ts }

/-- One event step of the Listening state: the event mutates the player, then
the registered handler (if any) re-reads the player, updates the in-memory
record and writes the whole record to storage (part_000 lines 119–170).  In
the audio handler, `tracks_.find(track => track.enabled)` returning nothing
would make `selectedTrack.language` throw before any write; that aborted path
leaves record and storage untouched. -/
def step (opts : PluginOptions) (ev : PlayerEvent) (st : SessionState) : SessionState :=
  let p := applyEventToPlayer ev st.player
  match ev with
  | .volumeChange _ _ =>
    if opts.muted || opts.volume then
      let p1 := if opts.muted then { p with defaultMuted := p.muted } else p
      let d1 := if opts.muted then { st.data with muted := some p.muted } else st.data
      let d2 := if opts.volume then { d1 with volume := some p.volume } else d1
      { player := p1, data := d2, stored := some d2 }
    else { st with player := p }
  | .rateChange _ =>
    if opts.playbackRate then
      let p1 := { p with defaultPlaybackRate := p.playbackRate }
      let d1 := { st.data with playbackRate := some p.playbackRate }
      { player := p1, data := d1, stored := some d1 }
    else { st with player := p }
  | .textTrackChange _ =>
    if opts.captions then
      match p.textTracks.find? (fun t => t.mode == "showing") with
      | some t =>
        let d1 := { st.data with captions := some t.language }
        { player := p, data := d1, stored := some d1 }
      | none =>
        let d1 := { st.data with captions := some "" }
        { player := p, data := d1, stored := some d1 }
    else { st with player := p }
  | .audioTrackChange _ =>
    if opts.audioTrack then
      match p.audioTracks.find? (fun t => t.enabled) with
      | some t =>
        let d1 := { st.data with audioTrack := some t.language }
        { player := p, data := d1, stored := some d1 }
      | none => { st with player := p }
    else { st with player := p }

/-- A whole session: fold the step function over a sequence of events. -/
def runEvents (opts : PluginOptions) (evs : List PlayerEvent) (st : SessionState) :
    SessionState :=
  evs.foldl (fun s e => step opts e s) st

/-! ## Activation entry point -/

/-- The kinds of change subscriptions the plugin can register. -/
inductive HandlerKind where
  | volumeChange
  | rateChange
  | textTrackChange
  | audioTrackChange
deriving Repr, DecidableEq

/-- Subscriptions registered by `onPlayerReady`, in source order. -/
def registeredHandlers (opts : PluginOptions) : List HandlerKind :=
  (if opts.muted || opts.volume then [HandlerKind.volumeChange] else []) ++
    (if opts.playbackRate then [HandlerKind.rateChange] else []) ++
      (if opts.captions then [HandlerKind.textTrackChange] else []) ++
        (if opts.audioTrack then [HandlerKind.audioTrackChange] else [])

/-- Outcome of one plugin activation: the session state it leaves behind, the
subscriptions it registered, how many storage reads/writes it performed, and
whether it emitted the unavailability notice. -/
structure ActivationResult where
  player : PlayerState
  data : PersistedRecord
  stored : Option PersistedRecord
  handlers : List HandlerKind
  storageReads : Nat
  storageWrites : Nat
  loggedUnavailable : Bool
deriving Repr, DecidableEq

/-- The `persistControls` entry point (part_000 lines 185–196): probe the
storage; on failure log once and return — no read, no write, no player
mutation, no subscription.  On success, merge the caller options with the
defaults and run `onPlayerReady` (which performs exactly one `getItem` and no
write).  Being a total function, it returns normally in both cases. -/
def persistControls (storageAvailable : Bool) (u : UserOptions) (p : PlayerState)
    (stored : Option PersistedRecord) : ActivationResult :=
  if storageAvailable then
    let opts := mergeOptions u
    let st := onPlayerReady opts stored p
    { player := st.player, data := st.data, stored := st.stored
      handlers := registeredHandlers opts
      storageReads := 1, storageWrites := 0, loggedUnavailable := false }
  else
    { player := p, data := emptyRecord, stored := stored
      handlers := [], storageReads := 0, storageWrites := 0, loggedUnavailable := true }

/-! ## Record fields touched by each event, for the whole-record-write claim -/

/-- The five preference keys of the persisted record. -/
inductive PrefKey where
  | muted
  | volume
  | playbackRate
  | captions
  | audioTrack
deriving Repr, DecidableEq

/-- Whether the handler of an event updates a given record field. -/
def touches : PlayerEvent → PrefKey → Bool
  | .volumeChange _ _, .muted => true
  | .volumeChange _ _, .volume => true
  | .volumeChange _ _, _ => false
  | .rateChange _, .playbackRate => true
  | .rateChange _, _ => false
  | .textTrackChange _, .captions => true
  | .textTrackChange _, _ => false
  | .audioTrackChange _, .audioTrack => true
  | .audioTrackChange _, _ => false

/-- Two records agree on a given preference key. -/
def agreeOn : PrefKey → PersistedRecord → PersistedRecord → Prop
  | .muted, r1, r2 => r1.muted = r2.muted
  | .volume, r1, r2 => r1.volume = r2.volume
  | .playbackRate, r1, r2 => r1.playbackRate = r2.playbackRate
  | .captions, r1, r2 => r1.captions = r2.captions
  | .audioTrack, r1, r2 => r1.audioTrack = r2.audioTrack

/-- An audio-track list with exactly one enabled track: there is an index `i`
holding an enabled track, and every track at another index is disabled. -/
def exactlyOneEnabled (ts : List AudioTrack) : Prop :=
  ∃ (i : Nat) (t : AudioTrack), ts[i]? = some t ∧ t.enabled = true ∧
    ∀ (k : Nat) (u : AudioTrack), ts[k]? = some u → k ≠ i → u.enabled = false

/-- A concrete player used to instantiate universally quantified theorems. -/
def samplePlayer : PlayerState :=
  { muted := false, defaultMuted := false, volume := 1, playbackRate := 1
    defaultPlaybackRate := 1, playbackRates := [1, 2]
    textTracks := [], audioTracks := [], classes := [] }

/-- A concrete session state used to instantiate universally quantified
theorems. -/
def sampleSession : SessionState :=
  { player := samplePlayer, data := emptyRecord, stored := none }

/-! ## Frame lemmas: each startup step touches only its own player field -/

@[simp] theorem applyVolumePref_muted (o : PluginOptions) (d : PersistedRecord)
    (p : PlayerState) : (applyVolumePref o d p).muted = p.muted := by
  unfold applyVolumePref
  repeat' first | rfl | split

@[simp] theorem applyVolumePref_playbackRate (o : PluginOptions) (d : PersistedRecord)
    (p : PlayerState) : (applyVolumePref o d p).playbackRate = p.playbackRate := by
  unfold applyVolumePref
  repeat' first | rfl | split

@[simp] theorem applyVolumePref_playbackRates (o : PluginOptions) (d : PersistedRecord)
    (p : PlayerState) : (applyVolumePref o d p).playbackRates = p.playbackRates := by
  unfold applyVolumePref
  repeat' first | rfl | split

@[simp] theorem applyVolumePref_textTracks (o : PluginOptions) (d : PersistedRecord)
    (p : PlayerState) : (applyVolumePref o d p).textTracks = p.textTracks := by
  unfold applyVolumePref
  repeat' first | rfl | split

@[simp] theorem applyVolumePref_audioTracks (o : PluginOptions) (d : PersistedRecord)
    (p : PlayerState) : (applyVolumePref o d p).audioTracks = p.audioTracks := by
  unfold applyVolumePref
  repeat' first | rfl | split

@[simp] theorem applyMutedPref_volume (o : PluginOptions) (d : PersistedRecord)
    (p : PlayerState) : (applyMutedPref o d p).volume = p.volume := by
  unfold applyMutedPref
  repeat' first | rfl | split

@[simp] theorem applyMutedPref_playbackRate (o : PluginOptions) (d : PersistedRecord)
    (p : PlayerState) : (applyMutedPref o d p).playbackRate = p.playbackRate := by
  unfold applyMutedPref
  repeat' first | rfl | split

@[simp] theorem applyMutedPref_playbackRates (o : PluginOptions) (d : PersistedRecord)
    (p : PlayerState) : (applyMutedPref o d p).playbackRates = p.playbackRates := by
  unfold applyMutedPref
  repeat' first | rfl | split

@[simp] theorem applyMutedPref_textTracks (o : PluginOptions) (d : PersistedRecord)
    (p : PlayerState) : (applyMutedPref o d p).textTracks = p.textTracks := by
  unfold applyMutedPref
  repeat' first | rfl | split

@[simp] theorem applyMutedPref_audioTracks (o : PluginOptions) (d : PersistedRecord)
    (p : PlayerState) : (applyMutedPref o d p).audioTracks = p.audioTracks := by
  unfold applyMutedPref
  repeat' first | rfl | split

@[simp] theorem applyRatePref_muted (o : PluginOptions) (d : PersistedRecord)
    (p : PlayerState) : (applyRatePref o d p).muted = p.muted := by
  unfold applyRatePref
  repeat' first | rfl | split

@[simp] theorem applyRatePref_volume (o : PluginOptions) (d : PersistedRecord)
    (p : PlayerState) : (applyRatePref o d p).volume = p.volume := by
  unfold applyRatePref
  repeat' first | rfl | split

@[simp] theorem applyRatePref_textTracks (o : PluginOptions) (d : PersistedRecord)
    (p : PlayerState) : (applyRatePref o d p).textTracks = p.textTracks := by
  unfold applyRatePref
  repeat' first | rfl | split

@[simp] theorem applyRatePref_audioTracks (o : PluginOptions) (d : PersistedRecord)
    (p : PlayerState) : (applyRatePref o d p).audioTracks = p.audioTracks := by
  unfold applyRatePref
  repeat' first | rfl | split

@[simp] theorem applyCaptionsPref_muted (o : PluginOptions) (d : PersistedRecord)
    (p : PlayerState) : (applyCaptionsPref o d p).muted = p.muted := by
  unfold applyCaptionsPref
  repeat' first | rfl | split

@[simp] theorem applyCaptionsPref_volume (o : PluginOptions) (d : PersistedRecord)
    (p : PlayerState) : (applyCaptionsPref o d p).volume = p.volume := by
  unfold applyCaptionsPref
  repeat' first | rfl | split

@[simp] theorem applyCaptionsPref_playbackRate (o : PluginOptions) (d : PersistedRecord)
    (p : PlayerState) : (applyCaptionsPref o d p).playbackRate = p.playbackRate := by
  unfold applyCaptionsPref
  repeat' first | rfl | split

@[simp] theorem applyCaptionsPref_audioTracks (o : PluginOptions) (d : PersistedRecord)
    (p : PlayerState) : (applyCaptionsPref o d p).audioTracks = p.audioTracks := by
  unfold applyCaptionsPref
  repeat' first | rfl | split

@[simp] theorem applyAudioPref_muted (o : PluginOptions) (d : PersistedRecord)
    (p : PlayerState) : (applyAudioPref o d p).muted = p.muted := by
  unfold applyAudioPref
  repeat' first | rfl | split

@[simp] theorem applyAudioPref_volume (o : PluginOptions) (d : PersistedRecord)
    (p : PlayerState) : (applyAudioPref o d p).volume = p.volume := by
  unfold applyAudioPref
  repeat' first | rfl | split

@[simp] theorem applyAudioPref_playbackRate (o : PluginOptions) (d : PersistedRecord)
    (p : PlayerState) : (applyAudioPref o d p).playbackRate = p.playbackRate := by
  unfold applyAudioPref
  repeat' first | rfl | split

@[simp] theorem applyAudioPref_textTracks (o : PluginOptions) (d : PersistedRecord)
    (p : PlayerState) : (applyAudioPref o d p).textTracks = p.textTracks := by
  unfold applyAudioPref
  repeat' first | rfl | split

/-! ## Behaviour of each startup step on its own field -/

theorem applyMutedPref_muted_of_true (o : PluginOptions) (d : PersistedRecord)
    (p : PlayerState) (h : o.muted = true) (hm : d.muted = some true) :
    (applyMutedPref o d p).muted = true := by
  simp [applyMutedPref, h, hm]

theorem applyMutedPref_muted_of_false (o : PluginOptions) (d : PersistedRecord)
    (p : PlayerState) (hm : d.muted = some false) :
    (applyMutedPref o d p).muted = p.muted := by
  simp [applyMutedPref, hm]

theorem applyVolumePref_volume_of_truthy (o : PluginOptions) (d : PersistedRecord)
    (p : PlayerState) (v : ℚ) (h : o.volume = true) (hv : d.volume = some v)
    (hnz : v ≠ 0) : (applyVolumePref o d p).volume = v := by
  simp [applyVolumePref, h, hv, hnz]

theorem applyVolumePref_volume_of_zero (o : PluginOptions) (d : PersistedRecord)
    (p : PlayerState) (hv : d.volume = some 0) :
    (applyVolumePref o d p).volume = p.volume := by
  simp [applyVolumePref, hv]

theorem applyRatePref_playbackRate_of_member (o : PluginOptions) (d : PersistedRecord)
    (p : PlayerState) (v : ℚ) (h : o.playbackRate = true) (hv : d.playbackRate = some v)
    (hnz : v ≠ 0) (hmem : v ∈ p.playbackRates) :
    (applyRatePref o d p).playbackRate = v := by
  simp [applyRatePref, h, hv, hnz, hmem]

theorem applyRatePref_playbackRate_of_not_member (o : PluginOptions) (d : PersistedRecord)
    (p : PlayerState) (v : ℚ) (hv : d.playbackRate = some v)
    (hmem : v ∉ p.playbackRates) :
    (applyRatePref o d p).playbackRate = p.playbackRate := by
  by_cases hz : v = 0 <;> simp [applyRatePref, hv, hz, hmem]

theorem applyRatePref_playbackRate_of_zero (o : PluginOptions) (d : PersistedRecord)
    (p : PlayerState) (hv : d.playbackRate = some 0) :
    (applyRatePref o d p).playbackRate = p.playbackRate := by
  simp [applyRatePref, hv]

theorem applyCaptionsPref_textTracks_of_truthy (o : PluginOptions) (d : PersistedRecord)
    (p : PlayerState) (v : String) (h : o.captions = true) (hv : d.captions = some v)
    (hne : v ≠ "") :
    (applyCaptionsPref o d p).textTracks = resolveCaptions v p.textTracks := by
  simp [applyCaptionsPref, h, hv, hne]

theorem applyCaptionsPref_textTracks_of_empty (o : PluginOptions) (d : PersistedRecord)
    (p : PlayerState) (hv : d.captions = some "") :
    (applyCaptionsPref o d p).textTracks = p.textTracks := by
  simp [applyCaptionsPref, hv]

theorem applyAudioPref_audioTracks_of_truthy (o : PluginOptions) (d : PersistedRecord)
    (p : PlayerState) (v : String) (h : o.audioTrack = true) (hv : d.audioTrack = some v)
    (hne : v ≠ "") :
    (applyAudioPref o d p).audioTracks = resolveAudio v p.audioTracks := by
  simp [applyAudioPref, h, hv, hne]

theorem applyAudioPref_audioTracks_of_empty (o : PluginOptions) (d : PersistedRecord)
    (p : PlayerState) (hv : d.audioTrack = some "") :
    (applyAudioPref o d p).audioTracks = p.audioTracks := by
  simp [applyAudioPref, hv]

/-! ## Additional behaviour lemmas for skipped startup steps -/

theorem applyCaptionsPref_textTracks_of_none (o : PluginOptions) (d : PersistedRecord)
    (p : PlayerState) (hv : d.captions = none) :
    (applyCaptionsPref o d p).textTracks = p.textTracks := by
  simp [applyCaptionsPref, hv]

theorem applyCaptionsPref_textTracks_of_disabled (o : PluginOptions) (d : PersistedRecord)
    (p : PlayerState) (h : o.captions = false) :
    (applyCaptionsPref o d p).textTracks = p.textTracks := by
  simp [applyCaptionsPref, h]

theorem applyAudioPref_audioTracks_of_none (o : PluginOptions) (d : PersistedRecord)
    (p : PlayerState) (hv : d.audioTrack = none) :
    (applyAudioPref o d p).audioTracks = p.audioTracks := by
  simp [applyAudioPref, hv]

theorem applyAudioPref_audioTracks_of_disabled (o : PluginOptions) (d : PersistedRecord)
    (p : PlayerState) (h : o.audioTrack = false) :
    (applyAudioPref o d p).audioTracks = p.audioTracks := by
  simp [applyAudioPref, h]

/-! ## List helper lemmas for the in-place track updates -/

theorem length_modifyIdx (f : α → α) (i : Nat) (l : List α) :
    (modifyIdx f i l).length = l.length := by
  induction l generalizing i with
  | nil => cases i <;> rfl
  | cons x xs ih => cases i <;> simp [modifyIdx, ih]

theorem get?_modifyIdx (f : α → α) (i k : Nat) (l : List α) :
    (modifyIdx f i l)[k]? = if k = i then l[k]?.map f else l[k]? := by
  induction l generalizing i k with
  | nil => simp [modifyIdx]
  | cons x xs ih =>
    cases i <;> cases k <;> simp [modifyIdx, ih]

theorem findIdxFrom_eq_some (p : α → Bool) (l : List α) (i : Nat) (x : α)
    (hget : l[i]? = some x) (hp : p x = true)
    (hmin : ∀ k y, k < i → l[k]? = some y → p y = false) :
    findIdxFrom p l = some i := by
  induction l generalizing i with
  | nil => simp at hget
  | cons a as ih =>
    cases i with
    | zero =>
      simp at hget
      subst hget
      simp [findIdxFrom, hp]
    | succ i =>
      have ha : p a = false := hmin 0 a (Nat.succ_pos i) (by simp)
      have htail : findIdxFrom p as = some i :=
        ih i (by simpa using hget)
          (fun k y hk hky => hmin (k + 1) y (by omega) (by simpa using hky))
      simp [findIdxFrom, ha, htail]

theorem findIdxFrom_none_spec (p : α → Bool) (l : List α)
    (h : findIdxFrom p l = none) : ∀ (k : Nat) (y : α), l[k]? = some y → p y = false := by
  induction l with
  | nil => intro k y hy; simp at hy
  | cons a as ih =>
    intro k y hy
    by_cases hpa : p a
    · simp [findIdxFrom, hpa] at h
    · simp [findIdxFrom, hpa] at h
      cases k with
      | zero => simp at hy; subst hy; simpa using hpa
      | succ k => exact ih h k y (by simpa using hy)

/-! ## Behaviour of the audio-track resolution -/

theorem resolveAudio_of_no_match (v : String) (ts : List AudioTrack)
    (h : findIdxFrom (fun t => t.language == v) ts = none) :
    resolveAudio v ts = ts := by
  rcases he : findIdxFrom (fun t => t.enabled) ts with _ | i <;>
    simp [resolveAudio, h, he]

theorem resolveAudio_match_spec (v : String) (ts : List AudioTrack) (j : Nat)
    (hone : exactlyOneEnabled ts)
    (hj : findIdxFrom (fun t => t.language == v) ts = some j) :
    (resolveAudio v ts).length = ts.length ∧
    ∀ (k : Nat) (t u : AudioTrack), (resolveAudio v ts)[k]? = some t →
      ts[k]? = some u → t.language = u.language ∧ (t.enabled = true ↔ k = j) := by
  obtain ⟨i, t0, hi, ht0, huniq⟩ := hone
  have hie : findIdxFrom (fun t => t.enabled) ts = some i :=
    findIdxFrom_eq_some _ ts i t0 hi ht0
      (fun k y hk hky => huniq k y hky (by omega))
  have hres : resolveAudio v ts =
      modifyIdx (fun t => { t with enabled := true }) j
        (modifyIdx (fun t => { t with enabled := false }) i ts) := by
    simp [resolveAudio, hie, hj]
  constructor
  · rw [hres, length_modifyIdx, length_modifyIdx]
  · intro k t u ht hu
    rw [hres, get?_modifyIdx, get?_modifyIdx, hu] at ht
    by_cases hkj : k = j
    · subst hkj
      by_cases hki : k = i
      · subst hki
        simp at ht
        simp [← ht]
      · simp [hki] at ht
        simp [← ht]
    · by_cases hki : k = i
      · subst hki
        simp [hkj] at ht
        simp [← ht, hkj]
      · simp [hkj, hki] at ht
        have hud := huniq k u hu hki
        simp [← ht, hkj, hud]

/-! ## Congruence lemmas: each startup step's own field depends only on the
corresponding input field -/

theorem applyVolumePref_volume_congr (o : PluginOptions) (d : PersistedRecord)
    (p q : PlayerState) (h : p.volume = q.volume) :
    (applyVolumePref o d p).volume = (applyVolumePref o d q).volume := by
  rcases hv : d.volume with _ | v <;> simp only [applyVolumePref, hv] <;>
    split_ifs <;> simp [h]

theorem applyMutedPref_muted_congr (o : PluginOptions) (d : PersistedRecord)
    (p q : PlayerState) (h : p.muted = q.muted) :
    (applyMutedPref o d p).muted = (applyMutedPref o d q).muted := by
  rcases hm : d.muted with _ | b <;> simp only [applyMutedPref, hm] <;>
    split_ifs <;> simp [h]

theorem applyRatePref_playbackRate_congr (o : PluginOptions) (d : PersistedRecord)
    (p q : PlayerState) (h1 : p.playbackRate = q.playbackRate)
    (h2 : p.playbackRates = q.playbackRates) :
    (applyRatePref o d p).playbackRate = (applyRatePref o d q).playbackRate := by
  rcases hv : d.playbackRate with _ | v <;> simp only [applyRatePref, hv, h2] <;>
    split_ifs <;> simp [h1]

theorem applyCaptionsPref_textTracks_congr (o : PluginOptions) (d : PersistedRecord)
    (p q : PlayerState) (h : p.textTracks = q.textTracks) :
    (applyCaptionsPref o d p).textTracks = (applyCaptionsPref o d q).textTracks := by
  rcases hv : d.captions with _ | v <;> simp only [applyCaptionsPref, hv, h] <;>
    split_ifs <;> simp [h]

theorem applyAudioPref_audioTracks_congr (o : PluginOptions) (d : PersistedRecord)
    (p q : PlayerState) (h : p.audioTracks = q.audioTracks) :
    (applyAudioPref o d p).audioTracks = (applyAudioPref o d q).audioTracks := by
  rcases hv : d.audioTrack with _ | v <;> simp only [applyAudioPref, hv, h] <;>
    split_ifs <;> simp [h]

/-! ## Projections of the startup pipeline onto each player field -/

theorem onPlayerReady_player_muted (opts : PluginOptions) (d : PersistedRecord)
    (p : PlayerState) :
    (onPlayerReady opts (some d) p).player.muted = (applyMutedPref opts d p).muted := by
  simp only [onPlayerReady, Option.getD_some]
  rw [applyAudioPref_muted, applyCaptionsPref_muted, applyRatePref_muted]
  exact applyMutedPref_muted_congr _ _ _ _ (by simp)

theorem onPlayerReady_player_volume (opts : PluginOptions) (d : PersistedRecord)
    (p : PlayerState) :
    (onPlayerReady opts (some d) p).player.volume = (applyVolumePref opts d p).volume := by
  simp only [onPlayerReady, Option.getD_some]
  rw [applyAudioPref_volume, applyCaptionsPref_volume, applyRatePref_volume,
    applyMutedPref_volume]
  exact applyVolumePref_volume_congr _ _ _ _ rfl

theorem onPlayerReady_player_playbackRate (opts : PluginOptions) (d : PersistedRecord)
    (p : PlayerState) :
    (onPlayerReady opts (some d) p).player.playbackRate =
      (applyRatePref opts d p).playbackRate := by
  simp only [onPlayerReady, Option.getD_some]
  rw [applyAudioPref_playbackRate, applyCaptionsPref_playbackRate]
  exact applyRatePref_playbackRate_congr _ _ _ _ (by simp) (by simp)

theorem onPlayerReady_player_textTracks (opts : PluginOptions) (d : PersistedRecord)
    (p : PlayerState) :
    (onPlayerReady opts (some d) p).player.textTracks =
      (applyCaptionsPref opts d p).textTracks := by
  simp only [onPlayerReady, Option.getD_some]
  rw [applyAudioPref_textTracks]
  exact applyCaptionsPref_textTracks_congr _ _ _ _ (by simp)

theorem onPlayerReady_player_audioTracks (opts : PluginOptions) (d : PersistedRecord)
    (p : PlayerState) :
    (onPlayerReady opts (some d) p).player.audioTracks =
      (applyAudioPref opts d p).audioTracks := by
  simp only [onPlayerReady, Option.getD_some]
  exact applyAudioPref_audioTracks_congr _ _ _ _ (by simp)

/-! ## Claims -/

/-- C1, counterexample.  The claim says decoding a malformed stored string such
as `"not json"` yields the empty record.  In the code,
`JSON.parse('not json')` throws before the `|| ` fallback is ever consulted,
so the decode step fails the caller instead of producing the empty record. -/
theorem c1_tolerant_decode_counterexample :
    decodeData (some "not json") = Except.error () ∧
    decodeData (some "not json") ≠ Except.ok (Json.obj []) := by
  refine ⟨rfl, fun h => ?_⟩
  have e : decodeData (some "not json") = Except.error () := rfl
  rw [e] at h
  exact Except.noConfusion h

/-- C1, amended.  Decoding the absent record yields the empty record, and
decoding any stored string that parses as JSON succeeds; but a stored string
that does not parse makes the decode step fail the caller (the `||` fallback
only handles parsed-but-falsy values, not parse errors). -/
theorem c1_tolerant_decode_amended :
    decodeData none = Except.ok (Json.obj []) ∧
    (∀ (s : String) (v : Json), parseJson s = some v →
      ∃ r, decodeData (some s) = Except.ok r) ∧
    (∀ s : String, parseJson s = none → decodeData (some s) = Except.error ()) := by
  refine ⟨rfl, ?_, ?_⟩
  · intro s v hv
    exact ⟨if jsTruthy v then v else Json.obj [], by simp [decodeData, hv]⟩
  · intro s hs
    simp [decodeData, hs]

/-- C1, witness for the amended theorem at concrete inputs. -/
theorem c1_tolerant_decode_amended_witness :
    (∃ r, decodeData (some "null") = Except.ok r) ∧
    decodeData (some "not a record") = Except.error () :=
  ⟨c1_tolerant_decode_amended.2.1 "null" Json.null rfl,
    c1_tolerant_decode_amended.2.2 "not a record" rfl⟩

/-- C5: when the storage probe fails, `persistControls` leaves the player and
the stored record untouched, performs no storage read or write, registers no
subscription, emits the single notice, and (being a total function) returns
normally — for every caller-supplied options object. -/
theorem c5_disabled_storage_noop (u : UserOptions) (p : PlayerState)
    (stored : Option PersistedRecord) :
    (persistControls false u p stored).player = p ∧
    (persistControls false u p stored).stored = stored ∧
    (persistControls false u p stored).storageReads = 0 ∧
    (persistControls false u p stored).storageWrites = 0 ∧
    (persistControls false u p stored).handlers = [] ∧
    (persistControls false u p stored).loggedUnavailable = true := by
  simp [persistControls]

/-- C9: on a text-track-change event with captions enabled, the handler
persists the showing track's language if one exists, and persists the empty
string `""` when none is showing; in both cases the whole record is written,
and the resulting captions entry is never the absent key. -/
theorem c9_empty_caption_persistence (opts : PluginOptions) (st : SessionState)
    (ts : List TextTrack) (h : opts.captions = true) :
    (∀ t : TextTrack, ts.find? (fun x => x.mode == "showing") = some t →
      (step opts (.textTrackChange ts) st).data.captions = some t.language ∧
      (step opts (.textTrackChange ts) st).stored =
        some (step opts (.textTrackChange ts) st).data) ∧
    (ts.find? (fun x => x.mode == "showing") = none →
      (step opts (.textTrackChange ts) st).data.captions = some "" ∧
      (step opts (.textTrackChange ts) st).stored =
        some (step opts (.textTrackChange ts) st).data) ∧
    (step opts (.textTrackChange ts) st).data.captions ≠ none := by
  refine ⟨?_, ?_, ?_⟩
  · intro t ht
    simp [step, applyEventToPlayer, h, ht]
  · intro hn
    simp [step, applyEventToPlayer, h, hn]
  · rcases hf : ts.find? (fun x => x.mode == "showing") with _ | t <;>
      simp [step, applyEventToPlayer, h, hf]

/-- C9, witness: with no track showing, the empty string is persisted. -/
theorem c9_empty_caption_persistence_witness :
    defaultOptions.captions = true ∧
    ((step defaultOptions (.textTrackChange []) sampleSession).data.captions = some "" ∧
      (step defaultOptions (.textTrackChange []) sampleSession).stored =
        some (step defaultOptions (.textTrackChange []) sampleSession).data) :=
  ⟨rfl, (c9_empty_caption_persistence defaultOptions sampleSession [] rfl).2.1 rfl⟩

/-- C10: on every volume-change event with the muted option enabled, the
handler pushes the player's current muted state into the player's
`defaultMuted` slot (and also persists the record) — a player mutation the
spec does not mention for this event. -/
theorem c10_volume_event_sets_defaultMuted (opts : PluginOptions) (st : SessionState)
    (v : ℚ) (m : Bool) (h : opts.muted = true) :
    (step opts (.volumeChange v m) st).player.defaultMuted = m ∧
    (step opts (.volumeChange v m) st).stored =
      some (step opts (.volumeChange v m) st).data := by
  simp [step, applyEventToPlayer, h]

/-- C10, witness at a concrete event and session. -/
theorem c10_volume_event_sets_defaultMuted_witness :
    defaultOptions.muted = true ∧
    ((step defaultOptions (.volumeChange 1 true) sampleSession).player.defaultMuted = true ∧
      (step defaultOptions (.volumeChange 1 true) sampleSession).stored =
        some (step defaultOptions (.volumeChange 1 true) sampleSession).data) :=
  ⟨rfl, c10_volume_event_sets_defaultMuted defaultOptions sampleSession 1 true rfl⟩

/-- C7, counterexample.  The claim says that with the volume option disabled a
volume change leaves the persisted record unchanged, for every session state.
With volume disabled but muted enabled (its default), the volume-change
handler is still registered and rewrites the record, refreshing the muted
field: here the stored record gains `muted: false` and so changes. -/
theorem c7_write_on_change_counterexample :
    (step { muted := true, volume := false, playbackRate := true, captions := true,
            audioTrack := true }
        (.volumeChange (21 / 50) false)
        { player := samplePlayer, data := emptyRecord, stored := some emptyRecord }).stored ≠
      some emptyRecord := by
  decide

/-- C7, amended.  A volume change to 0.42 with volume enabled makes the next
read of the stored record yield `volume: 0.42`.  With volume disabled the
volume field of the record is untouched, and if the muted option is also
disabled the handler is not registered at all, leaving record and storage
unchanged; if muted is enabled, the write may still refresh the muted field. -/
theorem c7_write_on_change_amended :
    (∀ (opts : PluginOptions) (st : SessionState) (m : Bool), opts.volume = true →
      ∃ r, (step opts (.volumeChange (21 / 50) m) st).stored = some r ∧
        r.volume = some (21 / 50)) ∧
    (∀ (opts : PluginOptions) (st : SessionState) (v : ℚ) (m : Bool), opts.volume = false →
      (step opts (.volumeChange v m) st).data.volume = st.data.volume) ∧
    (∀ (opts : PluginOptions) (st : SessionState) (v : ℚ) (m : Bool),
      opts.volume = false → opts.muted = false →
      (step opts (.volumeChange v m) st).stored = st.stored ∧
      (step opts (.volumeChange v m) st).data = st.data) := by
  refine ⟨?_, ?_, ?_⟩
  · intro opts st m h
    refine ⟨(step opts (.volumeChange (21 / 50) m) st).data, ?_, ?_⟩ <;>
      simp [step, applyEventToPlayer, h]
  · intro opts st v m h
    by_cases hm : opts.muted <;> simp [step, applyEventToPlayer, h, hm]
  · intro opts st v m h hm
    simp [step, applyEventToPlayer, h, hm]

/-- C7, witness: a concrete volume change to 0.42 with all options at their
defaults ends with `volume: 0.42` readable from storage. -/
theorem c7_write_on_change_amended_witness :
    ∃ r, (step defaultOptions (.volumeChange (21 / 50) false) sampleSession).stored =
      some r ∧ r.volume = some (21 / 50) :=
  c7_write_on_change_amended.1 defaultOptions sampleSession false rfl

/-- C8: in any session (any event sequence from any start state), the next
event's handler either performs no write or writes the entire in-memory
record, and that record still carries the pre-event values of every field the
event does not update — sibling fields written earlier are never lost. -/
theorem c8_whole_record_write (opts : PluginOptions) (evs : List PlayerEvent)
    (st0 : SessionState) (ev : PlayerEvent) :
    ((step opts ev (runEvents opts evs st0)).stored = (runEvents opts evs st0).stored ∨
      (step opts ev (runEvents opts evs st0)).stored =
        some (step opts ev (runEvents opts evs st0)).data) ∧
    ∀ k : PrefKey, touches ev k = false →
      agreeOn k (step opts ev (runEvents opts evs st0)).data
        (runEvents opts evs st0).data := by
  generalize runEvents opts evs st0 = st
  constructor
  · cases ev <;> simp only [step, applyEventToPlayer] <;> (repeat' split) <;>
      first
        | exact Or.inr rfl
        | exact Or.inl rfl
  · intro k hk
    cases ev <;> cases k <;>
      simp only [step, applyEventToPlayer, agreeOn] <;>
      (repeat' split) <;>
      first
        | rfl
        | (exfalso; simp [touches] at hk)

/-- C8, witness: a volume-change event leaves the captions field of the
in-memory record as it was. -/
theorem c8_whole_record_write_witness :
    agreeOn PrefKey.captions
      (step defaultOptions (.volumeChange 1 false)
        (runEvents defaultOptions [] sampleSession)).data
      (runEvents defaultOptions [] sampleSession).data :=
  (c8_whole_record_write defaultOptions [] sampleSession
    (.volumeChange 1 false)).2 PrefKey.captions rfl

/-- C2, counterexample.  The claim quantifies over every persisted captions
value, but when the persisted value is the empty string — the very state the
plugin itself persists for "no captions" — the startup truthiness guard
`if (value)` skips the captions branch entirely, so a content-authored
default track is NOT set to showing. -/
theorem c2_caption_precedence_counterexample :
    (({ samplePlayer with
        textTracks := [{ language := "en", default := true, mode := "disabled" }] } :
          PlayerState).textTracks.find? (fun t => t.default)).isSome = true ∧
    (onPlayerReady defaultOptions (some { captions := some "" })
        { samplePlayer with
          textTracks :=
            [{ language := "en", default := true, mode := "disabled" }] }).player.textTracks =
      [{ language := "en", default := true, mode := "disabled" }] := by
  decide

/-- C2, amended.  For a present, non-empty persisted captions value the
default-wins precedence holds exactly as claimed: a flagged default track is
set to showing regardless of the persisted language; otherwise a track whose
language matches is set to showing; otherwise nothing changes.  For an empty
or absent persisted value the startup leaves every track untouched, even when
a default track exists. -/
theorem c2_caption_precedence_amended :
    (∀ (opts : PluginOptions) (d : PersistedRecord) (p : PlayerState) (v : String)
      (i : Nat), opts.captions = true → d.captions = some v → v ≠ "" →
      findIdxFrom (fun t => t.default) p.textTracks = some i →
      (onPlayerReady opts (some d) p).player.textTracks =
        modifyIdx setShowing i p.textTracks) ∧
    (∀ (opts : PluginOptions) (d : PersistedRecord) (p : PlayerState) (v : String)
      (j : Nat), opts.captions = true → d.captions = some v → v ≠ "" →
      findIdxFrom (fun t => t.default) p.textTracks = none →
      findIdxFrom (fun t => t.language == v) p.textTracks = some j →
      (onPlayerReady opts (some d) p).player.textTracks =
        modifyIdx setShowing j p.textTracks) ∧
    (∀ (opts : PluginOptions) (d : PersistedRecord) (p : PlayerState) (v : String),
      d.captions = some v → v ≠ "" →
      findIdxFrom (fun t => t.default) p.textTracks = none →
      findIdxFrom (fun t => t.language == v) p.textTracks = none →
      (onPlayerReady opts (some d) p).player.textTracks = p.textTracks) ∧
    (∀ (opts : PluginOptions) (d : PersistedRecord) (p : PlayerState),
      d.captions = some "" →
      (onPlayerReady opts (some d) p).player.textTracks = p.textTracks) ∧
    (∀ (opts : PluginOptions) (d : PersistedRecord) (p : PlayerState),
      d.captions = none →
      (onPlayerReady opts (some d) p).player.textTracks = p.textTracks) := by
  refine ⟨?_, ?_, ?_, ?_, ?_⟩
  · intro opts d p v i hc hv hne hdef
    rw [onPlayerReady_player_textTracks,
      applyCaptionsPref_textTracks_of_truthy _ _ _ _ hc hv hne]
    simp [resolveCaptions, hdef]
  · intro opts d p v j hc hv hne hdef hmatch
    rw [onPlayerReady_player_textTracks,
      applyCaptionsPref_textTracks_of_truthy _ _ _ _ hc hv hne]
    simp [resolveCaptions, hdef, hmatch]
  · intro opts d p v hv hne hdef hmatch
    by_cases hc : opts.captions
    · rw [onPlayerReady_player_textTracks,
        applyCaptionsPref_textTracks_of_truthy _ _ _ _ hc hv hne]
      simp [resolveCaptions, hdef, hmatch]
    · rw [onPlayerReady_player_textTracks,
        applyCaptionsPref_textTracks_of_disabled _ _ _ (by simpa using hc)]
  · intro opts d p hv
    rw [onPlayerReady_player_textTracks, applyCaptionsPref_textTracks_of_empty _ _ _ hv]
  · intro opts d p hv
    rw [onPlayerReady_player_textTracks, applyCaptionsPref_textTracks_of_none _ _ _ hv]

/-- C2, witness: with no default track, persisted language `"fr"` selects the
matching track. -/
theorem c2_caption_precedence_amended_witness :
    (onPlayerReady defaultOptions (some { captions := some "fr" })
        { samplePlayer with
          textTracks :=
            [{ language := "fr", default := false, mode := "disabled" }] }).player.textTracks =
      modifyIdx setShowing 0 [{ language := "fr", default := false, mode := "disabled" }] :=
  c2_caption_precedence_amended.2.1 defaultOptions { captions := some "fr" }
    { samplePlayer with
      textTracks := [{ language := "fr", default := false, mode := "disabled" }] }
    "fr" 0 rfl rfl (by decide) (by decide) (by decide)

/-- C3, counterexample.  The claim asserts that whenever a track matches the
persisted language, the previously enabled track becomes disabled.  When the
matching track IS the previously enabled track (persisted language already
playing), the code disables and then re-enables the same object, so it ends
enabled, not disabled. -/
theorem c3_audio_swap_counterexample :
    findIdxFrom (fun t => t.language == "en")
        [({ language := "en", enabled := true } : AudioTrack)] = some 0 ∧
    findIdxFrom (fun t => t.enabled)
        [({ language := "en", enabled := true } : AudioTrack)] = some 0 ∧
    (onPlayerReady defaultOptions (some { audioTrack := some "en" })
        { samplePlayer with
          audioTracks := [{ language := "en", enabled := true }] }).player.audioTracks =
      [{ language := "en", enabled := true }] := by
  decide

/-- C3, amended.  For a present, non-empty persisted audio language and a list
with exactly one enabled track: if some track matches, then afterward a track
is enabled exactly at the index of the first match (so the previously enabled
track is disabled when it is a different track, but stays enabled when it is
itself the match), languages and length are unchanged, and exactly one track
is enabled; if no track matches, all flags are unchanged.  An empty or absent
persisted value leaves the list untouched. -/
theorem c3_audio_swap_amended :
    (∀ (opts : PluginOptions) (d : PersistedRecord) (p : PlayerState) (v : String)
      (j : Nat), opts.audioTrack = true → d.audioTrack = some v → v ≠ "" →
      exactlyOneEnabled p.audioTracks →
      findIdxFrom (fun t => t.language == v) p.audioTracks = some j →
      (onPlayerReady opts (some d) p).player.audioTracks.length =
        p.audioTracks.length ∧
      ∀ (k : Nat) (t u : AudioTrack),
        ((onPlayerReady opts (some d) p).player.audioTracks)[k]? = some t →
        (p.audioTracks)[k]? = some u →
        t.language = u.language ∧ (t.enabled = true ↔ k = j)) ∧
    (∀ (opts : PluginOptions) (d : PersistedRecord) (p : PlayerState) (v : String),
      d.audioTrack = some v → v ≠ "" →
      findIdxFrom (fun t => t.language == v) p.audioTracks = none →
      (onPlayerReady opts (some d) p).player.audioTracks = p.audioTracks) ∧
    (∀ (opts : PluginOptions) (d : PersistedRecord) (p : PlayerState),
      d.audioTrack = some "" →
      (onPlayerReady opts (some d) p).player.audioTracks = p.audioTracks) ∧
    (∀ (opts : PluginOptions) (d : PersistedRecord) (p : PlayerState),
      d.audioTrack = none →
      (onPlayerReady opts (some d) p).player.audioTracks = p.audioTracks) := by
  refine ⟨?_, ?_, ?_, ?_⟩
  · intro opts d p v j ho hv hne hone hj
    rw [onPlayerReady_player_audioTracks,
      applyAudioPref_audioTracks_of_truthy _ _ _ _ ho hv hne]
    exact resolveAudio_match_spec v p.audioTracks j hone hj
  · intro opts d p v hv hne hmatch
    by_cases ho : opts.audioTrack
    · rw [onPlayerReady_player_audioTracks,
        applyAudioPref_audioTracks_of_truthy _ _ _ _ ho hv hne]
      exact resolveAudio_of_no_match _ _ hmatch
    · rw [onPlayerReady_player_audioTracks,
        applyAudioPref_audioTracks_of_disabled _ _ _ (by simpa using ho)]
  · intro opts d p hv
    rw [onPlayerReady_player_audioTracks, applyAudioPref_audioTracks_of_empty _ _ _ hv]
  · intro opts d p hv
    rw [onPlayerReady_player_audioTracks, applyAudioPref_audioTracks_of_none _ _ _ hv]

/-- C3, witness: persisted `"fr"` with `"en"` enabled and `"fr"` available
keeps the track count unchanged (the swap case of the amended claim). -/
theorem c3_audio_swap_amended_witness :
    (onPlayerReady defaultOptions (some { audioTrack := some "fr" })
        { samplePlayer with
          audioTracks := [{ language := "en", enabled := true },
            { language := "fr", enabled := false }] }).player.audioTracks.length =
      ([{ language := "en", enabled := true },
        { language := "fr", enabled := false }] : List AudioTrack).length :=
  (c3_audio_swap_amended.1 defaultOptions { audioTrack := some "fr" }
    { samplePlayer with
      audioTracks := [{ language := "en", enabled := true },
        { language := "fr", enabled := false }] }
    "fr" 1 rfl rfl (by decide)
    ⟨0, { language := "en", enabled := true }, rfl, rfl, by
      intro k u hk hkne
      match k, hk with
      | 1, hk => simp at hk; simp [← hk]
      | Nat.succ (Nat.succ k), hk => simp at hk⟩
    (by decide)).1

/-- C4, counterexample.  The claim says presence is the only requirement, with
`muted == false` and `volume == 0.0` called out explicitly.  The startup guard
is JavaScript truthiness, not presence: a persisted `muted: false` and
`volume: 0` are both falsy, so neither is assigned — the player stays muted
at volume 1 here. -/
theorem c4_direct_assignment_counterexample :
    (onPlayerReady defaultOptions (some { muted := some false, volume := some 0 })
        { samplePlayer with muted := true, volume := 1 }).player.muted = true ∧
    (onPlayerReady defaultOptions (some { muted := some false, volume := some 0 })
        { samplePlayer with muted := true, volume := 1 }).player.volume = 1 := by
  decide

/-- C4, amended.  Startup assignment of muted and volume requires the stored
value to be truthy, not merely present: a stored `muted: true` is applied, a
stored `muted: false` is skipped leaving the player's muted state unchanged;
a stored non-zero volume is applied, a stored `volume: 0` is skipped leaving
the player's volume unchanged. -/
theorem c4_direct_assignment_amended :
    (∀ (opts : PluginOptions) (d : PersistedRecord) (p : PlayerState),
      opts.muted = true → d.muted = some true →
      (onPlayerReady opts (some d) p).player.muted = true) ∧
    (∀ (opts : PluginOptions) (d : PersistedRecord) (p : PlayerState),
      d.muted = some false →
      (onPlayerReady opts (some d) p).player.muted = p.muted) ∧
    (∀ (opts : PluginOptions) (d : PersistedRecord) (p : PlayerState) (v : ℚ),
      opts.volume = true → d.volume = some v → v ≠ 0 →
      (onPlayerReady opts (some d) p).player.volume = v) ∧
    (∀ (opts : PluginOptions) (d : PersistedRecord) (p : PlayerState),
      d.volume = some 0 →
      (onPlayerReady opts (some d) p).player.volume = p.volume) := by
  refine ⟨?_, ?_, ?_, ?_⟩
  · intro opts d p h hm
    rw [onPlayerReady_player_muted]
    exact applyMutedPref_muted_of_true _ _ _ h hm
  · intro opts d p hm
    rw [onPlayerReady_player_muted]
    exact applyMutedPref_muted_of_false _ _ _ hm
  · intro opts d p v h hv hnz
    rw [onPlayerReady_player_volume]
    exact applyVolumePref_volume_of_truthy _ _ _ _ h hv hnz
  · intro opts d p hv
    rw [onPlayerReady_player_volume]
    exact applyVolumePref_volume_of_zero _ _ _ hv

/-- C4, witness: a truthy stored muted and volume are applied. -/
theorem c4_direct_assignment_amended_witness :
    (onPlayerReady defaultOptions (some { muted := some true, volume := some 2 })
        samplePlayer).player.muted = true ∧
    (onPlayerReady defaultOptions (some { muted := some true, volume := some 2 })
        samplePlayer).player.volume = 2 :=
  ⟨c4_direct_assignment_amended.1 defaultOptions
      { muted := some true, volume := some 2 } samplePlayer rfl rfl,
    c4_direct_assignment_amended.2.2.1 defaultOptions
      { muted := some true, volume := some 2 } samplePlayer 2 rfl rfl (by decide)⟩

/-- C6, counterexample.  The claim says a persisted rate that is a member of
the supported set is applied.  A persisted rate of `0` is falsy, so even when
`0` is in the player's supported-rate list the truthiness guard skips it and
the player's rate stays at 1. -/
theorem c6_rate_gating_counterexample :
    (0 : ℚ) ∈ ({ samplePlayer with playbackRates := [0, 1], playbackRate := 1 } :
        PlayerState).playbackRates ∧
    (onPlayerReady defaultOptions (some { playbackRate := some 0 })
        { samplePlayer with
          playbackRates := [0, 1], playbackRate := 1 }).player.playbackRate = 1 := by
  decide

/-- C6, amended.  A persisted rate outside the player's supported-rate set is
silently skipped and the player's rate is unchanged; a persisted rate inside
the set is applied provided it is non-zero (a stored rate of `0` is falsy and
always skipped, member or not). -/
theorem c6_rate_gating_amended :
    (∀ (opts : PluginOptions) (d : PersistedRecord) (p : PlayerState) (v : ℚ),
      d.playbackRate = some v → v ∉ p.playbackRates →
      (onPlayerReady opts (some d) p).player.playbackRate = p.playbackRate) ∧
    (∀ (opts : PluginOptions) (d : PersistedRecord) (p : PlayerState) (v : ℚ),
      opts.playbackRate = true → d.playbackRate = some v → v ≠ 0 →
      v ∈ p.playbackRates →
      (onPlayerReady opts (some d) p).player.playbackRate = v) ∧
    (∀ (opts : PluginOptions) (d : PersistedRecord) (p : PlayerState),
      d.playbackRate = some 0 →
      (onPlayerReady opts (some d) p).player.playbackRate = p.playbackRate) := by
  refine ⟨?_, ?_, ?_⟩
  · intro opts d p v hv hmem
    rw [onPlayerReady_player_playbackRate]
    exact applyRatePref_playbackRate_of_not_member _ _ _ _ hv hmem
  · intro opts d p v h hv hnz hmem
    rw [onPlayerReady_player_playbackRate]
    exact applyRatePref_playbackRate_of_member _ _ _ _ h hv hnz hmem
  · intro opts d p hv
    rw [onPlayerReady_player_playbackRate]
    exact applyRatePref_playbackRate_of_zero _ _ _ hv

/-- C6, witness: a supported non-zero stored rate is applied, and an
unsupported one is skipped. -/
theorem c6_rate_gating_amended_witness :
    (onPlayerReady defaultOptions (some { playbackRate := some 2 })
        samplePlayer).player.playbackRate = 2 ∧
    (onPlayerReady defaultOptions (some { playbackRate := some 3 })
        samplePlayer).player.playbackRate = samplePlayer.playbackRate :=
  ⟨c6_rate_gating_amended.2.1 defaultOptions { playbackRate := some 2 } samplePlayer 2
      rfl rfl (by decide) (by decide),
    c6_rate_gating_amended.1 defaultOptions { playbackRate := some 3 } samplePlayer 3
      rfl (by decide)⟩
